import Mathlib

/-!
Shallow embedding of the MQTT session manager in `src/main/mqtt_app.c`
(ESP-IDF application): the retry policy, the connection state machine
driven by transport events, the JSON status/command protocol, and the
public publish/subscribe/stop operations.

Conventions of the embedding:
* The external MQTT transport, timer service and cJSON library are
  collaborators assumed correct by the spec.  Calls into them are
  recorded as `Effect`s in the order the C code issues them; the
  message id a transport call returns is passed in as an oracle
  argument (`msgId`) where the C code inspects it.
* cJSON values are modelled by the inductive `Json`; serialisation
  (`cJSON_Print`, assumed correct) is abstracted to the `Json` value
  itself, and `cJSON_Parse` is an abstract parameter
  `parse : String → Option Json` (`none` = parse failure).
* C machine integers are `Nat`/`Int` with explicit `% 2 ^ 32` where the
  C computation is performed in `uint32_t`.
* The file-scope statics of `mqtt_app.c` (`client`, `reconnect_timer`,
  `mqtt_retry_count`, `mqtt_connected`, `device_ip`,
  `current_active_led`, and the static `last_update_time` of
  `publish_json_status`) form the `SessionState` record; pointers are
  abstracted to their nullness, the timer handle additionally to
  whether it is running (`esp_timer_is_active`).
-/

/-- Model of a cJSON value (the external JSON library's tree). -/
inductive Json where
  | null : Json
  | bool (b : Bool) : Json
  | num (n : Int) : Json
  | str (s : String) : Json
  | arr (elems : List Json) : Json
  | obj (fields : List (String × Json)) : Json

/-- ASCII lower-casing of one character, as cJSON's per-byte `tolower`. -/
def asciiLower (c : Char) : Char :=
  if 'A' ≤ c ∧ c ≤ 'Z' then Char.ofNat (c.toNat + 32) else c

/-- Case-insensitive string comparison, as cJSON's
`case_insensitive_strcmp` (ASCII only, which covers every field name
this protocol uses). -/
def ciEq (a b : String) : Bool :=
  a.data.map asciiLower == b.data.map asciiLower

/-- Lookup of a field in an object's field list, first match wins. -/
def findField : List (String × Json) → String → Option Json
  | [], _ => none
  | (k, v) :: rest, name => if ciEq k name then some v else findField rest name

/-- Model of `cJSON_GetObjectItem`: case-insensitive lookup among the
children of an object; on any non-object value there is no named child,
so the lookup yields `none` (NULL). -/
def getObjectItem (j : Json) (name : String) : Option Json :=
  match j with
  | Json.obj fields => findField fields name
  | _ => none

/-- `ESP_OK` of esp_err_t. -/
def ESP_OK : Int := 0

/-- `ESP_FAIL` of esp_err_t. -/
def ESP_FAIL : Int := -1

/-- `MQTT_RECONNECT_TIMEOUT_MS` (base reconnection delay, ms). -/
def MQTT_RECONNECT_TIMEOUT_MS : Nat := 5000

/-- `MQTT_MAX_RETRY_COUNT`. -/
def MQTT_MAX_RETRY_COUNT : Nat := 5

/-- `MQTT_TOPIC_DEVICE_COMMANDS`. -/
def MQTT_TOPIC_DEVICE_COMMANDS : String := "/device/commands"

/-- `MQTT_TOPIC_DEVICE_STATUS`. -/
def MQTT_TOPIC_DEVICE_STATUS : String := "/device/status"

/-- `MQTT_TOPIC_DEVICE_RESPONSE`. -/
def MQTT_TOPIC_DEVICE_RESPONSE : String := "/device/response"

/-- `MQTT_MSG_TYPE_COMMAND`. -/
def MQTT_MSG_TYPE_COMMAND : String := "command"

/-- `MQTT_MSG_TYPE_STATUS`. -/
def MQTT_MSG_TYPE_STATUS : String := "status"

/-- `MQTT_MSG_TYPE_RESPONSE`. -/
def MQTT_MSG_TYPE_RESPONSE : String := "response"

/-- Payload handed to `esp_mqtt_client_publish`: either a raw C string
from the caller, or the serialisation of a cJSON tree (`cJSON_Print`
abstracted to the tree itself). -/
inductive PubData where
  | raw (s : String) : PubData
  | json (j : Json) : PubData

/-- One call into an external collaborator (transport, timer, LED
action), recorded in program order. -/
inductive Effect where
  | clientPublish (topic : String) (data : PubData) (len : Int) (qos : Int) (retain : Bool) : Effect
  | clientSubscribe (topic : String) (qos : Int) : Effect
  | clientUnsubscribe (topic : String) : Effect
  | clientDisconnect : Effect
  | clientStop : Effect
  | clientDestroy : Effect
  | timerStartOnce (us : Nat) : Effect
  | timerStop : Effect
  | timerDelete : Effect
  | ledCommand (c : Char) : Effect

/-- The file-scope mutable state of `mqtt_app.c`. -/
structure SessionState where
  client : Bool
  reconnect_timer : Bool
  timer_active : Bool
  mqtt_retry_count : Nat
  mqtt_connected : Bool
  device_ip : String
  current_active_led : Int
  last_update_time : Nat

/-- `exponential_backoff` (mqtt_app.c:88-91):
`uint32_t delay = MQTT_RECONNECT_TIMEOUT_MS * (1 << retry_count);
return (delay > 300000) ? 300000 : delay;` — the product is reduced
`% 2 ^ 32` at the `uint32_t` assignment. -/
def exponential_backoff (retry_count : Nat) : Nat :=
  let delay := (MQTT_RECONNECT_TIMEOUT_MS * 2 ^ retry_count) % 2 ^ 32
  if delay > 300000 then 300000 else delay

/-- `publish_json_status` (mqtt_app.c:371-410).  Rejects only when not
connected AND the status string is not "offline"; otherwise builds the
status JSON (type, status, ip, uptime, free_heap, active_led,
time_since_last_update), updates the static `last_update_time`, and
publishes it retained at QoS 1 on the status topic.  `now_us` models
`esp_timer_get_time()`, `free_heap` models `esp_get_free_heap_size()`,
and `msgId` is the transport's return from `esp_mqtt_client_publish`.
Returns (esp_err_t, updated state, recorded transport calls). -/
def publish_json_status (s : SessionState) (now_us free_heap : Nat)
    (status : String) (msgId : Int) : Int × SessionState × List Effect :=
  if s.mqtt_connected = false ∧ status ≠ "offline" then
    (ESP_FAIL, s, [])
  else
    let current_time : Nat := (now_us / 1000000) % 2 ^ 32
    let time_since_last : Nat :=
      if s.last_update_time > 0 then
        (current_time + 2 ^ 32 - s.last_update_time) % 2 ^ 32
      else 0
    let root := Json.obj
      [("type", Json.str MQTT_MSG_TYPE_STATUS),
       ("status", Json.str status),
       ("ip", Json.str s.device_ip),
       ("uptime", Json.num (now_us / 1000000)),
       ("free_heap", Json.num free_heap),
       ("active_led", Json.num s.current_active_led),
       ("time_since_last_update", Json.num time_since_last)]
    ((if msgId > 0 then ESP_OK else ESP_FAIL),
     { s with last_update_time := current_time },
     [Effect.clientPublish MQTT_TOPIC_DEVICE_STATUS (PubData.json root) 0 1 true])

/-- `publish_json_message` (mqtt_app.c:413-437).  Rejects when not
connected or when the payload pointer is NULL; otherwise wraps the
payload in a `{type, payload}` envelope and publishes it at QoS 1,
non-retained.  The `msgId` oracle is the transport's return value. -/
def publish_json_message (connected : Bool) (topic ty : String)
    (payload : Option Json) (msgId : Int) : Int × List Effect :=
  match payload with
  | none => (ESP_FAIL, [])
  | some p =>
    if connected = false then
      (ESP_FAIL, [])
    else
      let root := Json.obj [("type", Json.str ty), ("payload", p)]
      ((if msgId > 0 then ESP_OK else ESP_FAIL),
       [Effect.clientPublish topic (PubData.json root) 0 1 false])

/-- `process_json_command` (mqtt_app.c:440-514).  `parsed` is the
result of `cJSON_Parse` on the received string (`none` = malformed
JSON).  Records the LED-action callback invocations and the transport
publishes the dispatcher issues; the C code discards the return value
of `publish_json_message`, so its oracle is irrelevant and fixed at 1. -/
def process_json_command (s : SessionState) (now_us free_heap : Nat)
    (parsed : Option Json) : List Effect :=
  match parsed with
  | none => []
  | some root =>
    match getObjectItem root "type" with
    | some (Json.str t) =>
      if t = "ping" then
        let response := Json.obj
          [("type", Json.str "pong"),
           ("status", Json.str "online"),
           ("ip", Json.str s.device_ip),
           ("uptime", Json.num (now_us / 1000000)),
           ("free_heap", Json.num free_heap),
           ("active_led", Json.num s.current_active_led)]
        [Effect.clientPublish MQTT_TOPIC_DEVICE_RESPONSE (PubData.json response) 0 1 false]
      else if t = MQTT_MSG_TYPE_COMMAND then
        match getObjectItem root "payload" with
        | none => []
        | some payload =>
          match getObjectItem payload "cmd" with
          | some (Json.str c) =>
            (if c = "led_a" then [Effect.ledCommand 'A']
             else if c = "led_b" then [Effect.ledCommand 'B']
             else if c = "led_c" then [Effect.ledCommand 'C']
             else [])
            ++ (publish_json_message s.mqtt_connected MQTT_TOPIC_DEVICE_RESPONSE
                  MQTT_MSG_TYPE_RESPONSE
                  (some (Json.obj [("cmd_received", Json.str c),
                                   ("success", Json.bool true)])) 1).2
          | _ => []
      else []
    | _ => []

/-- `mqtt_app_is_connected` (mqtt_app.c:184-186). -/
def mqtt_app_is_connected (s : SessionState) : Bool :=
  s.client && s.mqtt_connected

/-- `mqtt_app_publish` (mqtt_app.c:275-289).  Fails without touching
the transport when the client handle is NULL or not connected;
otherwise publishes and fails iff the transport's message id (`msgId`
oracle) is negative. -/
def mqtt_app_publish (s : SessionState) (topic data : String)
    (len qos : Int) (retain : Bool) (msgId : Int) : Int × List Effect :=
  if s.client = false ∨ s.mqtt_connected = false then
    (ESP_FAIL, [])
  else if msgId < 0 then
    (ESP_FAIL, [Effect.clientPublish topic (PubData.raw data) len qos retain])
  else
    (ESP_OK, [Effect.clientPublish topic (PubData.raw data) len qos retain])

/-- `mqtt_app_subscribe` (mqtt_app.c:292-306). -/
def mqtt_app_subscribe (s : SessionState) (topic : String) (qos : Int)
    (msgId : Int) : Int × List Effect :=
  if s.client = false ∨ s.mqtt_connected = false then
    (ESP_FAIL, [])
  else if msgId < 0 then
    (ESP_FAIL, [Effect.clientSubscribe topic qos])
  else
    (ESP_OK, [Effect.clientSubscribe topic qos])

/-- `mqtt_app_unsubscribe` (mqtt_app.c:309-323). -/
def mqtt_app_unsubscribe (s : SessionState) (topic : String)
    (msgId : Int) : Int × List Effect :=
  if s.client = false ∨ s.mqtt_connected = false then
    (ESP_FAIL, [])
  else if msgId < 0 then
    (ESP_FAIL, [Effect.clientUnsubscribe topic])
  else
    (ESP_OK, [Effect.clientUnsubscribe topic])

/-- The raw offline JSON string `mqtt_app_stop` builds with `snprintf`
(mqtt_app.c:346); `device_ip` is at most 15 bytes so the 100-byte
buffer never truncates. -/
def offlineMessage (ip : String) : String :=
  "\x7b\"status\":\"offline\",\"ip\":\"" ++ ip ++ "\"\x7d"

/-- `mqtt_app_stop` (mqtt_app.c:326-357).  No-op when no client;
otherwise stops (when active) and deletes the reconnection timer when
one exists, publishes the retained offline status and disconnects when
connected, and always stops and destroys the client, clearing the
handle.  Note the C code does not reset `mqtt_connected`. -/
def mqtt_app_stop (s : SessionState) : SessionState × List Effect :=
  if s.client = false then
    (s, [])
  else
    let timerEffs : List Effect :=
      if s.reconnect_timer then
        (if s.timer_active then [Effect.timerStop] else []) ++ [Effect.timerDelete]
      else []
    let s1 : SessionState :=
      if s.reconnect_timer then
        { s with reconnect_timer := false, timer_active := false }
      else s
    let msg := offlineMessage s.device_ip
    let pubEffs : List Effect :=
      if s.mqtt_connected then
        [Effect.clientPublish "/device/status" (PubData.raw msg) msg.length 1 true,
         Effect.clientDisconnect]
      else []
    ({ s1 with client := false },
     timerEffs ++ pubEffs ++ [Effect.clientStop, Effect.clientDestroy])

/-- Transport lifecycle/data events delivered to `mqtt_event_handler`
(the `esp_mqtt_event_id_t` cases the handler distinguishes). -/
inductive MqttEvent where
  | beforeConnect : MqttEvent
  | connected : MqttEvent
  | disconnected : MqttEvent
  | subscribed : MqttEvent
  | unsubscribed : MqttEvent
  | published : MqttEvent
  | data (topic : String) (payload : String) : MqttEvent
  | error : MqttEvent
  | other : MqttEvent

/-- `strncmp(topic, MQTT_TOPIC_DEVICE_COMMANDS,
strlen(MQTT_TOPIC_DEVICE_COMMANDS)) == 0` (mqtt_app.c:164): the
commands topic is compared as a leading pattern of the event topic,
not for full equality. -/
def topicMatchesCommands (topic : String) : Bool :=
  List.isPrefixOf MQTT_TOPIC_DEVICE_COMMANDS.data topic.data

/-- `mqtt_event_handler` (mqtt_app.c:103-181).  `parse` abstracts
`cJSON_Parse`; `now_us`, `free_heap` and `msgId` are the environment
oracles threaded to the publish helpers.  Returns the updated state and
the collaborator calls in program order.  On `connected` the handler
zeroes the retry counter, sets the flag, subscribes to the commands
topic at QoS 1 and publishes the "online" status; on `disconnected` it
clears the flag and, while the retry counter is below
`MQTT_MAX_RETRY_COUNT`, arms the one-shot timer with the backoff delay
(microseconds, computed in `uint32_t`) and increments the counter; on
`data` it hands a NUL-terminated copy of the payload to
`process_json_command` exactly when the topic starts with the commands
topic.  The int retry counter is truncated to `uint8_t` (`% 256`) at
the `exponential_backoff` call. -/
def mqtt_event_handler (parse : String → Option Json)
    (now_us free_heap : Nat) (msgId : Int) (s : SessionState) :
    MqttEvent → SessionState × List Effect
  | MqttEvent.connected =>
    let s1 := { s with mqtt_retry_count := 0, mqtt_connected := true }
    let r := publish_json_status s1 now_us free_heap "online" msgId
    (r.2.1, Effect.clientSubscribe MQTT_TOPIC_DEVICE_COMMANDS 1 :: r.2.2)
  | MqttEvent.disconnected =>
    let s1 := { s with mqtt_connected := false }
    if s1.mqtt_retry_count < MQTT_MAX_RETRY_COUNT then
      let delay := exponential_backoff (s1.mqtt_retry_count % 256)
      ({ s1 with mqtt_retry_count := s1.mqtt_retry_count + 1, timer_active := true },
       [Effect.timerStartOnce ((delay * 1000) % 2 ^ 32)])
    else
      (s1, [])
  | MqttEvent.data topic payload =>
    if topicMatchesCommands topic then
      (s, process_json_command s now_us free_heap (parse payload))
    else
      (s, [])
  | _ => (s, [])

/-- Folding `mqtt_event_handler` over a sequence of transport events,
accumulating the recorded collaborator calls. -/
def runEvents (parse : String → Option Json) (now_us free_heap : Nat)
    (msgId : Int) (s : SessionState) :
    List MqttEvent → SessionState × List Effect
  | [] => (s, [])
  | e :: es =>
    let r1 := mqtt_event_handler parse now_us free_heap msgId s e
    let r2 := runEvents parse now_us free_heap msgId r1.1 es
    (r2.1, r1.2 ++ r2.2)

/-- C1: for every attempt count `n < MQTT_MAX_RETRY_COUNT = 5`,
`exponential_backoff n = min (5000 * 2 ^ n) 300000`; on that range the
function is monotonically non-decreasing, bounded by the 300000 ms cap,
and the 32-bit unsigned product `5000 * 2 ^ n` does not overflow. -/
theorem exponential_backoff_spec (n : Nat) (h : n < 5) :
    exponential_backoff n = min (5000 * 2 ^ n) 300000
    ∧ (∀ m, m < 5 → n ≤ m → exponential_backoff n ≤ exponential_backoff m)
    ∧ exponential_backoff n ≤ 300000
    ∧ 5000 * 2 ^ n < 2 ^ 32 := by
  interval_cases n <;> exact ⟨by decide, by decide, by decide, by decide⟩

/-- Witness for C1 at attempt count 3. -/
theorem exponential_backoff_spec_witness :
    exponential_backoff 3 = min (5000 * 2 ^ 3) 300000
    ∧ (∀ m, m < 5 → 3 ≤ m → exponential_backoff 3 ≤ exponential_backoff m)
    ∧ exponential_backoff 3 ≤ 300000
    ∧ 5000 * 2 ^ 3 < 2 ^ 32 :=
  exponential_backoff_spec 3 (by decide)

/-- A session state that exists but is currently disconnected. -/
def stDisconnected : SessionState :=
  { client := true, reconnect_timer := true, timer_active := false,
    mqtt_retry_count := 0, mqtt_connected := false,
    device_ip := "192.168.1.7", current_active_led := 0, last_update_time := 0 }

/-- A session state that exists and is currently connected. -/
def stConnected : SessionState :=
  { stDisconnected with mqtt_connected := true }

/-- C2 counterexample: with the state disconnected, `publish_json_status`
with status string "offline" still issues a transport publish — the
gate at mqtt_app.c:372 exempts exactly that status string. -/
theorem publish_gating_counterexample :
    stDisconnected.mqtt_connected = false
    ∧ (publish_json_status stDisconnected 0 0 "offline" 1).2.2 =
        [Effect.clientPublish "/device/status" (PubData.json (Json.obj
          [("type", Json.str "status"), ("status", Json.str "offline"),
           ("ip", Json.str "192.168.1.7"), ("uptime", Json.num 0),
           ("free_heap", Json.num 0), ("active_led", Json.num 0),
           ("time_since_last_update", Json.num 0)])) 0 1 true] :=
  ⟨rfl, rfl⟩

/-- C2 (amended): while the connection state is not Connected, the JSON
status publish is rejected with no transport publish for every status
string other than "offline", and the command-response publish
(`publish_json_message`) is rejected for every topic, type and payload;
the two exceptions are `publish_json_status` with status "offline",
which publishes anyway, and the ping "pong" reply, which
`process_json_command` publishes with no connection-state check at all
(so a command envelope processed while disconnected can invoke the LED
callback but publishes nothing). -/
theorem publish_gating_amended (s : SessionState) (now_us free_heap : Nat)
    (status : String) (msgId : Int) (hnc : s.mqtt_connected = false) :
    (status ≠ "offline" →
        publish_json_status s now_us free_heap status msgId = (ESP_FAIL, s, []))
    ∧ (∀ topic ty payload m,
        publish_json_message s.mqtt_connected topic ty payload m = (ESP_FAIL, []))
    ∧ (∀ root payload c,
        getObjectItem root "type" = some (Json.str MQTT_MSG_TYPE_COMMAND) →
        getObjectItem root "payload" = some payload →
        getObjectItem payload "cmd" = some (Json.str c) →
        process_json_command s now_us free_heap (some root) =
          (if c = "led_a" then [Effect.ledCommand 'A']
           else if c = "led_b" then [Effect.ledCommand 'B']
           else if c = "led_c" then [Effect.ledCommand 'C']
           else []))
    ∧ (∀ root,
        getObjectItem root "type" = some (Json.str "ping") →
        process_json_command s now_us free_heap (some root) =
          [Effect.clientPublish MQTT_TOPIC_DEVICE_RESPONSE (PubData.json (Json.obj
            [("type", Json.str "pong"), ("status", Json.str "online"),
             ("ip", Json.str s.device_ip),
             ("uptime", Json.num (now_us / 1000000)),
             ("free_heap", Json.num free_heap),
             ("active_led", Json.num s.current_active_led)])) 0 1 false]) := by
  refine ⟨?_, ?_, ?_, ?_⟩
  · intro hst
    unfold publish_json_status
    rw [if_pos ⟨hnc, hst⟩]
  · intro topic ty payload m
    cases payload with
    | none => rfl
    | some p => simp [publish_json_message, hnc]
  · intro root payload c ht hp hc
    simp only [process_json_command, ht, hp, hc, MQTT_MSG_TYPE_COMMAND]
    simp [publish_json_message, hnc]
  · intro root ht
    simp only [process_json_command, ht]
    simp

/-- Witness for C2 (amended) at a concrete disconnected state. -/
theorem publish_gating_amended_witness :
    publish_json_status stDisconnected 0 0 "online" 1 = (ESP_FAIL, stDisconnected, [])
    ∧ process_json_command stDisconnected 0 0
        (some (Json.obj [("type", Json.str "command"),
          ("payload", Json.obj [("cmd", Json.str "led_a")])])) =
        [Effect.ledCommand 'A'] :=
  ⟨(publish_gating_amended stDisconnected 0 0 "online" 1 rfl).1 (by decide),
   (publish_gating_amended stDisconnected 0 0 "online" 1 rfl).2.2.1
     (Json.obj [("type", Json.str "command"),
       ("payload", Json.obj [("cmd", Json.str "led_a")])])
     (Json.obj [("cmd", Json.str "led_a")]) "led_a" rfl rfl rfl⟩

/-- C4: `mqtt_app_publish`, `mqtt_app_subscribe` and
`mqtt_app_unsubscribe` all return `ESP_FAIL` with no transport call
whenever the client handle is NULL or the state is not connected;
otherwise each issues exactly its transport call and returns `ESP_FAIL`
iff the transport's message id is negative, `ESP_OK` otherwise. -/
theorem mqtt_ops_connectivity_spec (s : SessionState) (topic data : String)
    (len qos msgId : Int) (retain : Bool) :
    ((s.client = false ∨ s.mqtt_connected = false) →
        mqtt_app_publish s topic data len qos retain msgId = (ESP_FAIL, [])
        ∧ mqtt_app_subscribe s topic qos msgId = (ESP_FAIL, [])
        ∧ mqtt_app_unsubscribe s topic msgId = (ESP_FAIL, []))
    ∧ (s.client = true → s.mqtt_connected = true →
        mqtt_app_publish s topic data len qos retain msgId =
          ((if msgId < 0 then ESP_FAIL else ESP_OK),
           [Effect.clientPublish topic (PubData.raw data) len qos retain])
        ∧ mqtt_app_subscribe s topic qos msgId =
            ((if msgId < 0 then ESP_FAIL else ESP_OK),
             [Effect.clientSubscribe topic qos])
        ∧ mqtt_app_unsubscribe s topic msgId =
            ((if msgId < 0 then ESP_FAIL else ESP_OK),
             [Effect.clientUnsubscribe topic])) := by
  constructor
  · intro h
    refine ⟨?_, ?_, ?_⟩ <;>
      simp only [mqtt_app_publish, mqtt_app_subscribe, mqtt_app_unsubscribe, if_pos h]
  · intro h1 h2
    refine ⟨?_, ?_, ?_⟩ <;>
      · simp only [mqtt_app_publish, mqtt_app_subscribe, mqtt_app_unsubscribe, h1, h2]
        rw [if_neg (by simp)]
        split <;> rfl

/-- The backoff delay never exceeds the 5-minute cap. -/
theorem exponential_backoff_le_cap (n : Nat) : exponential_backoff n ≤ 300000 := by
  simp only [exponential_backoff]
  split <;> omega

/-- `publish_json_status` never touches the retry counter. -/
theorem publish_json_status_retry (s : SessionState) (now_us free_heap : Nat)
    (status : String) (msgId : Int) :
    ((publish_json_status s now_us free_heap status msgId).2.1).mqtt_retry_count =
      s.mqtt_retry_count := by
  unfold publish_json_status
  split <;> rfl

/-- One handler step keeps the retry counter within the bound. -/
theorem handler_retry_le (parse : String → Option Json)
    (now_us free_heap : Nat) (msgId : Int) (s : SessionState) (e : MqttEvent)
    (h : s.mqtt_retry_count ≤ 5) :
    (mqtt_event_handler parse now_us free_heap msgId s e).1.mqtt_retry_count ≤ 5 := by
  cases e
  case connected =>
    simp only [mqtt_event_handler]
    rw [publish_json_status_retry]
    exact Nat.zero_le 5
  case disconnected =>
    simp only [mqtt_event_handler, MQTT_MAX_RETRY_COUNT]
    split
    next hlt =>
      simp only []
      simp at hlt ⊢
      omega
    next => exact h
  case data topic payload =>
    simp only [mqtt_event_handler]
    split <;> exact h
  all_goals exact h

/-- Folding any event sequence keeps the retry counter within the bound. -/
theorem runEvents_retry_le (parse : String → Option Json)
    (now_us free_heap : Nat) (msgId : Int) (es : List MqttEvent) :
    ∀ s : SessionState, s.mqtt_retry_count ≤ 5 →
      (runEvents parse now_us free_heap msgId s es).1.mqtt_retry_count ≤ 5 := by
  induction es with
  | nil => intro s h; exact h
  | cons e es ih =>
    intro s h
    simp only [runEvents]
    exact ih _ (handler_retry_le parse now_us free_heap msgId s e h)

/-- C3: over every sequence of transport events from a state whose
retry counter is within the bound, the counter stays in `[0, 5]`
(non-negativity is intrinsic to `Nat`); a `connected` event resets it
to exactly 0 regardless of the prior value; a `disconnected` event with
counter `< 5` arms the one-shot reconnection timer with
`backoff(counter)` milliseconds (`* 1000` microseconds) and then
increments the counter; and once the counter has reached 5 (as after 5
consecutive `disconnected` events with no intervening `connected`), a
further `disconnected` event arms no timer and changes nothing but the
connected flag. -/
theorem retry_counter_spec (parse : String → Option Json)
    (now_us free_heap : Nat) (msgId : Int) (s0 : SessionState)
    (es : List MqttEvent) (h0 : s0.mqtt_retry_count ≤ 5) :
    (runEvents parse now_us free_heap msgId s0 es).1.mqtt_retry_count ≤ 5
    ∧ (∀ s : SessionState,
        (mqtt_event_handler parse now_us free_heap msgId s
            MqttEvent.connected).1.mqtt_retry_count = 0)
    ∧ (∀ s : SessionState, s.mqtt_retry_count < 5 →
        mqtt_event_handler parse now_us free_heap msgId s MqttEvent.disconnected =
          ({ s with
              mqtt_connected := false,
              mqtt_retry_count := s.mqtt_retry_count + 1,
              timer_active := true },
           [Effect.timerStartOnce (exponential_backoff s.mqtt_retry_count * 1000)]))
    ∧ (∀ s : SessionState, 5 ≤ s.mqtt_retry_count →
        mqtt_event_handler parse now_us free_heap msgId s MqttEvent.disconnected =
          ({ s with mqtt_connected := false }, [])) := by
  refine ⟨runEvents_retry_le parse now_us free_heap msgId es s0 h0, ?_, ?_, ?_⟩
  · intro s
    simp only [mqtt_event_handler]
    rw [publish_json_status_retry]
  · intro s hlt
    have h256 : s.mqtt_retry_count % 256 = s.mqtt_retry_count :=
      Nat.mod_eq_of_lt (by omega)
    have hmod : (exponential_backoff s.mqtt_retry_count * 1000) % 2 ^ 32 =
        exponential_backoff s.mqtt_retry_count * 1000 :=
      Nat.mod_eq_of_lt (lt_of_le_of_lt
        (Nat.mul_le_mul_right 1000 (exponential_backoff_le_cap s.mqtt_retry_count))
        (by norm_num))
    simp only [mqtt_event_handler, MQTT_MAX_RETRY_COUNT]
    rw [if_pos hlt]
    simp only [h256, hmod]
  · intro s hge
    simp only [mqtt_event_handler, MQTT_MAX_RETRY_COUNT]
    rw [if_neg (by omega)]

/-- Witness for C3: one disconnection from a fresh state keeps the
bound and arms the timer with the base backoff. -/
theorem retry_counter_spec_witness :
    (runEvents (fun _ => none) 0 0 1 stDisconnected
        [MqttEvent.disconnected]).1.mqtt_retry_count ≤ 5
    ∧ mqtt_event_handler (fun _ => none) 0 0 1 stDisconnected
        MqttEvent.disconnected =
      ({ stDisconnected with
          mqtt_connected := false,
          mqtt_retry_count := stDisconnected.mqtt_retry_count + 1,
          timer_active := true },
       [Effect.timerStartOnce (exponential_backoff stDisconnected.mqtt_retry_count * 1000)]) :=
  ⟨(retry_counter_spec (fun _ => none) 0 0 1 stDisconnected
      [MqttEvent.disconnected] (by decide)).1,
   (retry_counter_spec (fun _ => none) 0 0 1 stDisconnected []
      (by decide)).2.2.1 stDisconnected (by decide)⟩

/-- Witness for C4 at concrete disconnected and connected states. -/
theorem mqtt_ops_connectivity_spec_witness :
    mqtt_app_publish stDisconnected "/t" "x" 1 0 false 7 = (ESP_FAIL, [])
    ∧ mqtt_app_publish stConnected "/t" "x" 1 0 false 7 =
        (ESP_OK, [Effect.clientPublish "/t" (PubData.raw "x") 1 0 false]) := by
  refine ⟨((mqtt_ops_connectivity_spec stDisconnected "/t" "x" 1 0 7 false).1
      (Or.inr rfl)).1, ?_⟩
  have h := ((mqtt_ops_connectivity_spec stConnected "/t" "x" 1 0 7 false).2
      rfl rfl).1
  simpa using h

/-- C5: for every envelope of type "command" whose payload carries a
string field `cmd`, delivered while connected: the LED action callback
is invoked with 'A', 'B' or 'C' exactly for `cmd` "led_a", "led_b",
"led_c" (and not invoked for any other `cmd`), and in all cases a
response envelope of type "response" whose payload echoes
`cmd_received` and carries `success = true` is published to the
response topic at QoS 1, non-retained. -/
theorem command_dispatch_spec (s : SessionState) (now_us free_heap : Nat)
    (root payload : Json) (c : String)
    (hconn : s.mqtt_connected = true)
    (ht : getObjectItem root "type" = some (Json.str MQTT_MSG_TYPE_COMMAND))
    (hp : getObjectItem root "payload" = some payload)
    (hc : getObjectItem payload "cmd" = some (Json.str c)) :
    process_json_command s now_us free_heap (some root) =
      (if c = "led_a" then [Effect.ledCommand 'A']
       else if c = "led_b" then [Effect.ledCommand 'B']
       else if c = "led_c" then [Effect.ledCommand 'C']
       else [])
      ++ [Effect.clientPublish MQTT_TOPIC_DEVICE_RESPONSE (PubData.json (Json.obj
            [("type", Json.str MQTT_MSG_TYPE_RESPONSE),
             ("payload", Json.obj [("cmd_received", Json.str c),
                                   ("success", Json.bool true)])])) 0 1 false] := by
  simp only [process_json_command, ht, hp, hc, MQTT_MSG_TYPE_COMMAND]
  simp [publish_json_message, hconn, MQTT_MSG_TYPE_RESPONSE]

/-- Witness for C5: the "led_a" command from the spec scenario. -/
theorem command_dispatch_spec_witness :
    process_json_command stConnected 0 0
        (some (Json.obj [("type", Json.str "command"),
          ("payload", Json.obj [("cmd", Json.str "led_a")])])) =
      [Effect.ledCommand 'A',
       Effect.clientPublish "/device/response" (PubData.json (Json.obj
         [("type", Json.str "response"),
          ("payload", Json.obj [("cmd_received", Json.str "led_a"),
                                ("success", Json.bool true)])])) 0 1 false] := by
  have h := command_dispatch_spec stConnected 0 0
    (Json.obj [("type", Json.str "command"),
      ("payload", Json.obj [("cmd", Json.str "led_a")])])
    (Json.obj [("cmd", Json.str "led_a")]) "led_a" rfl rfl rfl rfl
  simpa using h

/-- C6 counterexample: the pong reply to a ping carries type, status,
ip, uptime, free_heap and active_led, but — against the claim — no
`time_since_last_update` field (mqtt_app.c:459-465 never adds one). -/
theorem ping_response_counterexample :
    process_json_command stConnected 5000000 1234
        (some (Json.obj [("type", Json.str "ping")])) =
      [Effect.clientPublish "/device/response" (PubData.json (Json.obj
        [("type", Json.str "pong"), ("status", Json.str "online"),
         ("ip", Json.str "192.168.1.7"), ("uptime", Json.num 5),
         ("free_heap", Json.num 1234), ("active_led", Json.num 0)])) 0 1 false]
    ∧ getObjectItem (Json.obj
        [("type", Json.str "pong"), ("status", Json.str "online"),
         ("ip", Json.str "192.168.1.7"), ("uptime", Json.num 5),
         ("free_heap", Json.num 1234), ("active_led", Json.num 0)])
        "time_since_last_update" = none :=
  ⟨rfl, rfl⟩

/-- C6 (amended): for every inbound `{"type":"ping"}` processed while
connected, the dispatcher publishes to the response topic, at QoS 1
non-retained, a pong envelope flattening status "online", the current
ip, a non-negative uptime in seconds, free_heap and active_led at top
level — but, unlike a status envelope, no `time_since_last_update`
field; no inbound payload is required. -/
theorem ping_response_amended (s : SessionState) (now_us free_heap : Nat)
    (root : Json) (hconn : s.mqtt_connected = true)
    (ht : getObjectItem root "type" = some (Json.str "ping")) :
    (process_json_command s now_us free_heap (some root) =
      [Effect.clientPublish MQTT_TOPIC_DEVICE_RESPONSE (PubData.json (Json.obj
        [("type", Json.str "pong"), ("status", Json.str "online"),
         ("ip", Json.str s.device_ip), ("uptime", Json.num (now_us / 1000000)),
         ("free_heap", Json.num free_heap),
         ("active_led", Json.num s.current_active_led)])) 0 1 false])
    ∧ (0 : Int) ≤ ((now_us / 1000000 : Nat) : Int)
    ∧ getObjectItem (Json.obj
        [("type", Json.str "pong"), ("status", Json.str "online"),
         ("ip", Json.str s.device_ip), ("uptime", Json.num (now_us / 1000000)),
         ("free_heap", Json.num free_heap),
         ("active_led", Json.num s.current_active_led)])
        "time_since_last_update" = none := by
  refine ⟨?_, Int.ofNat_nonneg _, rfl⟩
  simp only [process_json_command, ht]
  simp

/-- Witness for C6 (amended) on the concrete ping scenario. -/
theorem ping_response_amended_witness :
    process_json_command stConnected 7000000 99
        (some (Json.obj [("type", Json.str "ping")])) =
      [Effect.clientPublish "/device/response" (PubData.json (Json.obj
        [("type", Json.str "pong"), ("status", Json.str "online"),
         ("ip", Json.str "192.168.1.7"), ("uptime", Json.num 7),
         ("free_heap", Json.num 99), ("active_led", Json.num 0)])) 0 1 false] :=
  (ping_response_amended stConnected 7000000 99
    (Json.obj [("type", Json.str "ping")]) rfl rfl).1

/-- C7: a malformed inbound byte string (cJSON_Parse fails), or a
parsed envelope with a missing or non-string `type` field, produces no
collaborator call at all: no response publish, no LED callback, and no
state change (the dispatcher only logs and drops the message). -/
theorem decode_error_spec (s : SessionState) (now_us free_heap : Nat) :
    process_json_command s now_us free_heap none = []
    ∧ (∀ root, getObjectItem root "type" = none →
        process_json_command s now_us free_heap (some root) = [])
    ∧ (∀ root t, getObjectItem root "type" = some t →
        (∀ u, t ≠ Json.str u) →
        process_json_command s now_us free_heap (some root) = []) := by
  refine ⟨rfl, ?_, ?_⟩
  · intro root h
    simp only [process_json_command, h]
  · intro root t h hns
    simp only [process_json_command, h]
    cases t with
    | str u => exact absurd rfl (hns u)
    | null => rfl
    | bool b => rfl
    | num n => rfl
    | arr xs => rfl
    | obj fs => rfl

/-- Witness for C7: parse failure, an empty object, and a numeric
`type` all drop the message with no effect. -/
theorem decode_error_spec_witness :
    process_json_command stConnected 0 0 none = []
    ∧ process_json_command stConnected 0 0 (some (Json.obj [])) = []
    ∧ process_json_command stConnected 0 0
        (some (Json.obj [("type", Json.num 3)])) = [] :=
  ⟨(decode_error_spec stConnected 0 0).1,
   (decode_error_spec stConnected 0 0).2.1 (Json.obj []) rfl,
   (decode_error_spec stConnected 0 0).2.2 (Json.obj [("type", Json.num 3)])
     (Json.num 3) rfl (fun u h => nomatch h)⟩

/-- C8: `mqtt_app_stop` is idempotent.  With no client it is a no-op;
with a client it leaves the handle empty so that an immediately
following second call is a no-op; while connected the retained offline
status publish, the disconnect, the stop and the destroy occur in that
order; and an existing reconnection timer is deleted (stopped first
when it is active). -/
theorem stop_idempotent_spec (s : SessionState) :
    (s.client = false → mqtt_app_stop s = (s, []))
    ∧ (s.client = true →
        (mqtt_app_stop s).1.client = false
        ∧ mqtt_app_stop (mqtt_app_stop s).1 = ((mqtt_app_stop s).1, [])
        ∧ (s.mqtt_connected = true →
            List.Sublist
              [Effect.clientPublish "/device/status"
                 (PubData.raw (offlineMessage s.device_ip))
                 (offlineMessage s.device_ip).length 1 true,
               Effect.clientDisconnect, Effect.clientStop, Effect.clientDestroy]
              (mqtt_app_stop s).2)
        ∧ (s.reconnect_timer = true → Effect.timerDelete ∈ (mqtt_app_stop s).2)
        ∧ (s.reconnect_timer = true → s.timer_active = true →
            Effect.timerStop ∈ (mqtt_app_stop s).2)) := by
  obtain ⟨cl, rt, ta, rc, mc, ip, led, lu⟩ := s
  constructor
  · intro h
    cases h
    rfl
  · intro h
    cases h
    refine ⟨rfl, rfl, ?_, ?_, ?_⟩
    · intro hmc
      cases hmc
      cases rt
      · exact List.Sublist.refl _
      · cases ta
        · exact List.Sublist.cons _ (List.Sublist.refl _)
        · exact List.Sublist.cons _ (List.Sublist.cons _ (List.Sublist.refl _))
    · intro hrt
      cases hrt
      cases ta
      · exact List.mem_cons_self _ _
      · exact List.mem_cons_of_mem _ (List.mem_cons_self _ _)
    · intro hrt hta
      cases hrt
      cases hta
      exact List.mem_cons_self _ _

/-- Witness for C8 at a concrete connected state. -/
theorem stop_idempotent_spec_witness :
    (mqtt_app_stop stConnected).1.client = false
    ∧ mqtt_app_stop (mqtt_app_stop stConnected).1 =
        ((mqtt_app_stop stConnected).1, []) :=
  ⟨((stop_idempotent_spec stConnected).2 rfl).1,
   ((stop_idempotent_spec stConnected).2 rfl).2.1⟩

/-- C9: a data event dispatches its payload to the command processor
exactly when the commands topic is a leading pattern of the event
topic (prefix match, not equality — "/device/commands/extra" also
dispatches, "/device/status" does not), handing over the parse of the
full NUL-terminated payload copy; the session state never changes on a
data event. -/
theorem data_event_dispatch_spec (parse : String → Option Json)
    (now_us free_heap : Nat) (msgId : Int) (s : SessionState)
    (topic payload : String) :
    (topicMatchesCommands topic = true →
        mqtt_event_handler parse now_us free_heap msgId s
            (MqttEvent.data topic payload) =
          (s, process_json_command s now_us free_heap (parse payload)))
    ∧ (topicMatchesCommands topic = false →
        mqtt_event_handler parse now_us free_heap msgId s
            (MqttEvent.data topic payload) = (s, []))
    ∧ topicMatchesCommands "/device/commands/extra" = true
    ∧ topicMatchesCommands "/device/status" = false := by
  refine ⟨?_, ?_, by decide, by decide⟩
  · intro h
    simp only [mqtt_event_handler, h, if_true]
  · intro h
    simp only [mqtt_event_handler, h]
    rfl

/-- Witness for C9 on concrete matching and non-matching topics. -/
theorem data_event_dispatch_spec_witness :
    mqtt_event_handler (fun _ => none) 0 0 1 stConnected
        (MqttEvent.data "/device/commands/extra" "x") =
      (stConnected, process_json_command stConnected 0 0 none)
    ∧ mqtt_event_handler (fun _ => none) 0 0 1 stConnected
        (MqttEvent.data "/device/status" "x") = (stConnected, []) :=
  ⟨(data_event_dispatch_spec (fun _ => none) 0 0 1 stConnected
      "/device/commands/extra" "x").1 (by decide),
   (data_event_dispatch_spec (fun _ => none) 0 0 1 stConnected
      "/device/status" "x").2.1 (by decide)⟩

/-- C10: a "command" envelope whose payload is present but has no
`cmd` field, or whose `cmd` field is not a string, is silently dropped:
no LED callback and no response publish at all (unlike an unrecognized
`cmd` string, which still yields a success response). -/
theorem missing_cmd_spec (s : SessionState) (now_us free_heap : Nat)
    (root p : Json)
    (ht : getObjectItem root "type" = some (Json.str MQTT_MSG_TYPE_COMMAND))
    (hp : getObjectItem root "payload" = some p) :
    (getObjectItem p "cmd" = none →
        process_json_command s now_us free_heap (some root) = [])
    ∧ (∀ t, getObjectItem p "cmd" = some t → (∀ u, t ≠ Json.str u) →
        process_json_command s now_us free_heap (some root) = []) := by
  constructor
  · intro hc
    simp only [process_json_command, ht, hp, hc, MQTT_MSG_TYPE_COMMAND]
    simp
  · intro t hc hns
    simp only [process_json_command, ht, hp, hc, MQTT_MSG_TYPE_COMMAND]
    cases t with
    | str u => exact absurd rfl (hns u)
    | null => simp
    | bool b => simp
    | num n => simp
    | arr xs => simp
    | obj fs => simp

/-- Witness for C10: payload without `cmd`, and payload whose `cmd` is
a number, are both dropped. -/
theorem missing_cmd_spec_witness :
    process_json_command stConnected 0 0
        (some (Json.obj [("type", Json.str "command"),
          ("payload", Json.obj [("other", Json.str "x")])])) = []
    ∧ process_json_command stConnected 0 0
        (some (Json.obj [("type", Json.str "command"),
          ("payload", Json.obj [("cmd", Json.num 4)])])) = [] :=
  ⟨(missing_cmd_spec stConnected 0 0
      (Json.obj [("type", Json.str "command"),
        ("payload", Json.obj [("other", Json.str "x")])])
      (Json.obj [("other", Json.str "x")]) rfl rfl).1 rfl,
   (missing_cmd_spec stConnected 0 0
      (Json.obj [("type", Json.str "command"),
        ("payload", Json.obj [("cmd", Json.num 4)])])
      (Json.obj [("cmd", Json.num 4)]) rfl rfl).2 (Json.num 4) rfl
      (fun u h => nomatch h)⟩
